import Mathlib

/-!
Shallow embedding of src/crawler.py (a two-level CTFtime write-up crawler).

HTML documents are modelled as a tree of elements and text nodes, and the
four fixed xpath queries of the source are implemented directly over that
tree.  Network I/O is modelled by passing fetch oracles (attempt index to
response) into the functions that perform requests; the retry loop of
extract_info additionally produces a trace of attempt/sleep events so that
attempt and sleep counts can be stated.  Python exceptions are modelled by
an Except monad whose error type distinguishes the exception classes the
source can raise (CouldNotFetchInformation with its two message shapes,
IndexError from indexing an empty xpath result, TypeError from
concatenating None, NameError from the main block).
-/

namespace Crawler

/-- An HTML node: an element with a tag, attributes and children, or a text node. -/
inductive Node where
  | elem (tag : String) (attrs : List (String × String)) (children : List Node)
  | text (s : String)

/-- Attribute lookup, as lxml `element.get(name)`: first binding wins, `none` if absent. -/
def lookupAttr : List (String × String) → String → Option String
  | [], _ => none
  | (k, v) :: rest, name => if k = name then some v else lookupAttr rest name

/-- `getAttr n name` is lxml `n.get(name)`; text nodes have no attributes. -/
def getAttr : Node → String → Option String
  | .elem _ attrs _, name => lookupAttr attrs name
  | .text _, _ => none

/-- Whether a node is an element with the given tag. -/
def isElem (tag : String) : Node → Bool
  | .elem t _ _ => t = tag
  | .text _ => false

/-- The element children of a node carrying the given tag, in document order. -/
def childElems (tag : String) : Node → List Node
  | .elem _ _ cs => cs.filter (isElem tag)
  | .text _ => []

/-- The direct text-node children of a node (xpath `text()`), in document order. -/
def textChildren : Node → List String
  | .elem _ _ cs => cs.filterMap fun c =>
      match c with
      | .text s => some s
      | .elem _ _ _ => none
  | .text _ => []

mutual
/-- Descendant-or-self in document (preorder) order, as an xpath `//` step. -/
def descendants : Node → List Node
  | .elem t a cs => .elem t a cs :: descendantsList cs
  | .text s => [.text s]

/-- Descendant-or-self of each node in a list, concatenated in document order. -/
def descendantsList : List Node → List Node
  | [] => []
  | n :: ns => descendants n ++ descendantsList ns
end

/-- xpath `//div[@id='id_description']/p/a` (line 94): every anchor that is a child
of a `p` child of a `div` whose id attribute is `id_description`, in document order. -/
def description_anchors (root : Node) : List Node :=
  (((descendants root).filter fun n =>
      isElem "div" n && (getAttr n "id" == some "id_description")).flatMap
    (childElems "p")).flatMap (childElems "a")

/-- xpath `//a[text()='Original writeup']` (line 99): every anchor element having a
direct text node equal to the marker string, in document order. -/
def original_writeup_anchors (root : Node) : List Node :=
  (descendants root).filter fun n =>
    isElem "a" n && (textChildren n).contains "Original writeup"

/-- xpath `//table[@id='writeups_table']/tbody/tr` (line 45). -/
def writeups_rows (root : Node) : List Node :=
  (((descendants root).filter fun n =>
      isElem "table" n && (getAttr n "id" == some "writeups_table")).flatMap
    (childElems "tbody")).flatMap (childElems "tr")

/-- xpath `td[k+1]/a/text()` relative to a row (lines 61-62): the text nodes of the
anchor children of the (k+1)-st `td` child. -/
def td_a_text (k : Nat) (row : Node) : List String :=
  match (childElems "td" row).get? k with
  | some td => (childElems "a" td).flatMap textChildren
  | none => []

/-- Line 61: `row.xpath("td[1]/a/text()")[0]`; `none` models the IndexError on `[0]`. -/
def rowCtfText (row : Node) : Option String :=
  (td_a_text 0 row).head?

/-- Line 62: `row.xpath("td[2]/a/text()")[0]`; `none` models the IndexError on `[0]`. -/
def rowChallengeText (row : Node) : Option String :=
  (td_a_text 1 row).head?

/-- Line 63: `row.xpath("td[5]/a")[0]`; `none` models the IndexError on `[0]`. -/
def rowLinkAnchor (row : Node) : Option Node :=
  match (childElems "td" row).get? 4 with
  | some td => (childElems "a" td).head?
  | none => none

/-- `PARALLEL_REQ = 7` (line 16). -/
def PARALLEL_REQ : Nat := 7

/-- `MAX_RETRIES = 15` (line 17). -/
def MAX_RETRIES : Nat := 15

/-- `BASE_URL = 'https://ctftime.org'` (line 19). -/
def BASE_URL : String := "https://ctftime.org"

/-- The two message shapes a `CouldNotFetchInformation` is raised with: a bad
status code (line 112) or retries exhausted for a row (lines 75-76). -/
inductive FetchFailMsg where
  | badStatus (status : Int)
  | retriesExhausted (ctf challenge : String) (retries : Nat)
deriving DecidableEq

/-- The Python exception classes the source can raise. -/
inductive PyError where
  | couldNotFetchInformation (msg : FetchFailMsg)
  | indexError
  | typeError
  | nameError
deriving DecidableEq

/-- `RowInformation = namedtuple(..., ['ctf', 'challenge', 'link'])` (line 26).
`link` is an `Option` because `anchor.get("href")` can evaluate to Python `None`. -/
structure RowInformation where
  ctf : String
  challenge : String
  link : Option String
deriving DecidableEq

/-- An HTTP response as seen by the code: a status code and parsed content. -/
structure Response where
  status_code : Int
  content : Node

/-- `assert_status_200` (lines 106-112): raise `CouldNotFetchInformation` when the
status is not 200, return normally otherwise. -/
def assert_status_200 (status : Int) : Except PyError Unit :=
  if status ≠ 200 then
    Except.error (PyError.couldNotFetchInformation (FetchFailMsg.badStatus status))
  else
    Except.ok ()

/-- The pure part of `get_writeup_url` (lines 91-103): the link decision over the
parsed detail page — first description anchor, else first 'Original writeup'
anchor, else the detail URL itself.  The chosen anchor's `get("href")` may be
Python `None`, hence the `Option String` result. -/
def get_writeup_url_parse (content : Node) (url : String) : Option String :=
  match description_anchors content with
  | a :: _ => getAttr a "href"
  | [] =>
    match original_writeup_anchors content with
    | a :: _ => getAttr a "href"
    | [] => some url

/-- `get_writeup_url` (lines 79-103) with the network call replaced by the response
it obtained: check the status, then apply the link decision to the content. -/
def get_writeup_url (resp : Response) (url : String) : Except PyError (Option String) :=
  match assert_status_200 resp.status_code with
  | Except.error e => Except.error e
  | Except.ok _ => Except.ok (get_writeup_url_parse resp.content url)

/-- Events of one row's retry loop: a fetch attempt with its 0-based index, and a
backoff sleep performed after a failed attempt with that index. -/
inductive LoopEvent where
  | attempt (i : Nat)
  | sleep (i : Nat)
deriving DecidableEq

/-- The `for i in range(MAX_RETRIES)` loop of `extract_info` (lines 65-73), with
`fetch` giving the response of attempt `i`.  Returns the trace of events and
`some v` if some attempt returned `v`, `none` if the fuel ran out.  A failed
attempt always appends a sleep event (the `except` body runs `time.sleep`)
before the next iteration. -/
def retryLoop (fetch : Nat → Response) (url : String) : Nat → Nat → List LoopEvent × Option (Option String)
  | _, 0 => ([], none)
  | i, fuel + 1 =>
    match get_writeup_url (fetch i) url with
    | Except.ok v => ([LoopEvent.attempt i], some v)
    | Except.error _ =>
      (LoopEvent.attempt i :: LoopEvent.sleep i :: (retryLoop fetch url (i + 1) fuel).1,
       (retryLoop fetch url (i + 1) fuel).2)

/-- `extract_info` (lines 55-76): extract the three row fields (IndexError when an
xpath result is empty, line 61-63; TypeError when the column-5 anchor has no
href, line 67), then run the retry loop; on exhaustion raise
`CouldNotFetchInformation` carrying ctf, challenge and `MAX_RETRIES`. -/
def extract_info (fetch : Nat → Response) (row : Node) : List LoopEvent × Except PyError RowInformation :=
  match rowCtfText row with
  | none => ([], Except.error PyError.indexError)
  | some ctf =>
    match rowChallengeText row with
    | none => ([], Except.error PyError.indexError)
    | some challenge =>
      match rowLinkAnchor row with
      | none => ([], Except.error PyError.indexError)
      | some a =>
        match getAttr a "href" with
        | none => ([], Except.error PyError.typeError)
        | some link =>
          match retryLoop fetch (BASE_URL ++ link) 0 MAX_RETRIES with
          | (tr, some v) => (tr, Except.ok ⟨ctf, challenge, v⟩)
          | (tr, none) =>
            (tr, Except.error (PyError.couldNotFetchInformation
              (FetchFailMsg.retriesExhausted ctf challenge MAX_RETRIES)))

/-- `ThreadPool(PARALLEL_REQ).map(extract_info, rows)` (lines 48-49): every row's
resolution runs to completion; the results are collected in row order, and if any
row raised, `map` re-raises instead of returning a list (the model propagates the
first failing row in index order; thread completion order only affects which of
several failures is re-raised, not whether the map fails).  `fetch j` is the
detail-fetch oracle of the row with index `j0 + position`. -/
def pool_map (fetch : Nat → Nat → Response) : Nat → List Node → Except PyError (List RowInformation)
  | _, [] => Except.ok []
  | j0, row :: rest =>
    match (extract_info (fetch j0) row).2 with
    | Except.error e => Except.error e
    | Except.ok r =>
      match pool_map fetch (j0 + 1) rest with
      | Except.error e => Except.error e
      | Except.ok rs => Except.ok (r :: rs)

/-- The observable run of `get_all_writetups`: how many index-page fetches were
issued and the returned value or raised exception. -/
structure CrawlRun where
  indexFetches : Nat
  result : Except PyError (List RowInformation)

/-- `get_all_writetups` (lines 36-52): one `requests.get` on the index URL (the
single fetch recorded in `indexFetches`), `assert_status_200`, extract the rows,
then pool-map `extract_info` over them. -/
def get_all_writetups (indexResp : Response) (fetch : Nat → Nat → Response) : CrawlRun :=
  match assert_status_200 indexResp.status_code with
  | Except.error e => { indexFetches := 1, result := Except.error e }
  | Except.ok _ =>
    { indexFetches := 1
      result := pool_map fetch 0 (writeups_rows indexResp.content) }

/-- Observable output events of the `__main__` block (lines 129-137). -/
inductive MainEvent where
  | loggedException
  | printedSeparator
  | pprintedInfo (l : List RowInformation)
deriving DecidableEq

/-- The `try`/`except CouldNotFetchInformation` of the main block (lines 131-134):
on success the name `info` is bound; a `CouldNotFetchInformation` is caught and
logged, leaving `info` unbound; any other exception propagates uncaught. -/
def main_try (res : Except PyError (List RowInformation)) :
    (List MainEvent × Option (List RowInformation)) ⊕ PyError :=
  match res with
  | Except.ok info => Sum.inl ([], some info)
  | Except.error (PyError.couldNotFetchInformation _) =>
      Sum.inl ([MainEvent.loggedException], none)
  | Except.error e => Sum.inr e

/-- The `__main__` block (lines 129-137): after the try/except, `print("=" * 100)`
always runs, then `pprint(info)` evaluates the name `info`; if it was never bound
(crawl raised and was caught) this raises `NameError`.  Returns the emitted
events and the uncaught exception, if any. -/
def main_run (res : Except PyError (List RowInformation)) : List MainEvent × Option PyError :=
  match main_try res with
  | Sum.inr e => ([], some e)
  | Sum.inl (evs, env) =>
    match env with
    | some info => (evs ++ [MainEvent.printedSeparator, MainEvent.pprintedInfo info], none)
    | none => (evs ++ [MainEvent.printedSeparator], some PyError.nameError)

/-! ### Concrete fixtures used by witnesses and counterexamples -/

/-- A well-formed index row: columns 1 and 2 carry anchor text, column 5 an anchor
with an href. -/
def wrow : Node :=
  Node.elem "tr" []
    [Node.elem "td" [] [Node.elem "a" [] [Node.text "CTF1"]],
     Node.elem "td" [] [Node.elem "a" [] [Node.text "chal1"]],
     Node.elem "td" [] [],
     Node.elem "td" [] [],
     Node.elem "td" [] [Node.elem "a" [("href", "/writeup/9")] []]]

/-- A structurally broken row: no cells at all, so every row xpath is empty. -/
def badRow : Node := Node.elem "tr" [] []

/-- A transient-failure response: status 404. -/
def resp404 : Response := ⟨404, Node.elem "html" [] []⟩

/-- A detail-fetch oracle on which every attempt fails with status 404. -/
def failFetch : Nat → Response := fun _ => resp404

/-- An empty page: no description anchors, no 'Original writeup' anchor. -/
def emptyPage : Node := Node.elem "html" [] []

/-- A detail-fetch oracle that always succeeds with an empty page. -/
def okEmptyFetch : Nat → Response := fun _ => ⟨200, emptyPage⟩

/-- Detail page whose description's FIRST paragraph has no anchor while its SECOND
paragraph has one: distinguishes the code's query (any paragraph) from the
claim's wording (first paragraph). -/
def secondParagraphPage : Node :=
  Node.elem "html" []
    [Node.elem "div" [("id", "id_description")]
      [Node.elem "p" [] [Node.text "no anchor here"],
       Node.elem "p" [] [Node.elem "a" [("href", "https://example.org/x")] [Node.text "link"]]]]

/-- Detail page whose description anchor carries NO href attribute: the code then
returns Python None from `get("href")`. -/
def hreflessPage : Node :=
  Node.elem "html" []
    [Node.elem "div" [("id", "id_description")]
      [Node.elem "p" [] [Node.elem "a" [] [Node.text "bare anchor"]]]]

/-- A detail-fetch oracle that always succeeds with the href-less page. -/
def hreflessFetch : Nat → Response := fun _ => ⟨200, hreflessPage⟩

/-- Build an index row from two labels and a detail path. -/
def mkRow (ctf challenge path : String) : Node :=
  Node.elem "tr" []
    [Node.elem "td" [] [Node.elem "a" [] [Node.text ctf]],
     Node.elem "td" [] [Node.elem "a" [] [Node.text challenge]],
     Node.elem "td" [] [],
     Node.elem "td" [] [],
     Node.elem "td" [] [Node.elem "a" [("href", path)] []]]

/-- Build an index page around a list of rows. -/
def mkIndex (rows : List Node) : Node :=
  Node.elem "html" []
    [Node.elem "table" [("id", "writeups_table")]
      [Node.elem "tbody" [] rows]]

/-- Two-row index page mirroring the end-to-end example of the spec. -/
def exIndex : Response :=
  ⟨200, mkIndex [mkRow "CTF1" "pwn200" "/writeup/1", mkRow "CTF2" "pwn300" "/writeup/2"]⟩

/-- Detail page 1: inline description link to github. -/
def exDetail1 : Node :=
  Node.elem "html" []
    [Node.elem "div" [("id", "id_description")]
      [Node.elem "p" [] [Node.elem "a" [("href", "https://github.com/a/a")] [Node.text "here"]]]]

/-- Detail page 2: no description anchor, only an 'Original writeup' anchor. -/
def exDetail2 : Node :=
  Node.elem "html" []
    [Node.elem "a" [("href", "https://blog.example/b")] [Node.text "Original writeup"]]

/-- Per-row detail oracles for the two-row example: both rows succeed immediately. -/
def exFetch : Nat → Nat → Response := fun j _ =>
  if j = 0 then ⟨200, exDetail1⟩ else ⟨200, exDetail2⟩

/-- One-row index page whose single row's detail fetches all fail. -/
def oneRowIndex : Response := ⟨200, mkIndex [mkRow "CTF1" "chal1" "/writeup/9"]⟩

/-- A crawl-level oracle on which every detail fetch of every row fails. -/
def allFailFetch : Nat → Nat → Response := fun _ _ => resp404

/-- Two-row index page for the sibling-abort counterexample. -/
def twoRowIndex : Response :=
  ⟨200, mkIndex [mkRow "CTF1" "pwn200" "/writeup/1", mkRow "CTF2" "pwn300" "/writeup/2"]⟩

/-- Oracle where row 0's fetches all fail while row 1 succeeds immediately. -/
def row0FailsFetch : Nat → Nat → Response := fun j _ =>
  if j = 0 then resp404 else ⟨200, exDetail2⟩

example : rowCtfText wrow = some "CTF1" := rfl
example : rowChallengeText wrow = some "chal1" := rfl
example : rowLinkAnchor wrow = some (Node.elem "a" [("href", "/writeup/9")] []) := rfl
example : rowCtfText badRow = none := rfl
example : get_writeup_url_parse secondParagraphPage "u" = some "https://example.org/x" := rfl
example : get_writeup_url_parse hreflessPage "u" = none := rfl
example : get_writeup_url_parse exDetail1 "u" = some "https://github.com/a/a" := rfl
example : get_writeup_url_parse exDetail2 "u" = some "https://blog.example/b" := rfl
example : get_writeup_url_parse emptyPage "u" = some "u" := rfl
example : (extract_info failFetch wrow).2 =
    Except.error (PyError.couldNotFetchInformation
      (FetchFailMsg.retriesExhausted "CTF1" "chal1" MAX_RETRIES)) := rfl
example : (extract_info hreflessFetch wrow).2 = Except.ok ⟨"CTF1", "chal1", none⟩ := rfl
example : (writeups_rows exIndex.content).length = 2 := rfl
example : (get_all_writetups exIndex exFetch).result =
    Except.ok [⟨"CTF1", "pwn200", some "https://github.com/a/a"⟩,
               ⟨"CTF2", "pwn300", some "https://blog.example/b"⟩] := rfl
example : (get_all_writetups oneRowIndex allFailFetch).result =
    Except.error (PyError.couldNotFetchInformation
      (FetchFailMsg.retriesExhausted "CTF1" "chal1" MAX_RETRIES)) := rfl
example : (get_all_writetups twoRowIndex row0FailsFetch).result =
    Except.error (PyError.couldNotFetchInformation
      (FetchFailMsg.retriesExhausted "CTF1" "pwn200" MAX_RETRIES)) := rfl
example : main_run (Except.error (PyError.couldNotFetchInformation (FetchFailMsg.badStatus 404))) =
    ([MainEvent.loggedException, MainEvent.printedSeparator], some PyError.nameError) := rfl

/-! ### Retry-loop trace lemmas -/

/-- Whether a loop event is a fetch attempt. -/
def isAttemptEvent : LoopEvent → Bool
  | LoopEvent.attempt _ => true
  | LoopEvent.sleep _ => false

/-- Whether a loop event is a backoff sleep. -/
def isSleepEvent : LoopEvent → Bool
  | LoopEvent.attempt _ => false
  | LoopEvent.sleep _ => true

/-- Number of fetch attempts recorded in a trace. -/
def attemptsMade (tr : List LoopEvent) : Nat := (tr.filter isAttemptEvent).length

/-- Number of backoff sleeps recorded in a trace. -/
def sleepsMade (tr : List LoopEvent) : Nat := (tr.filter isSleepEvent).length

/-- The trace of a retry-loop run in which every attempt fails: an attempt followed
by a sleep, for `fuel` consecutive indices starting at `start`. -/
def allFailTrace (start fuel : Nat) : List LoopEvent :=
  (List.range' start fuel).flatMap fun k => [LoopEvent.attempt k, LoopEvent.sleep k]

theorem allFailTrace_succ (s n : Nat) :
    allFailTrace s (n + 1) =
      LoopEvent.attempt s :: LoopEvent.sleep s :: allFailTrace (s + 1) n := by
  simp [allFailTrace, List.range'_succ]

theorem attemptsMade_allFailTrace (fuel : Nat) :
    ∀ start, attemptsMade (allFailTrace start fuel) = fuel := by
  induction fuel with
  | zero => intro s; rfl
  | succ n ih =>
    intro s
    rw [allFailTrace_succ]
    have h := ih (s + 1)
    simp [attemptsMade, isAttemptEvent] at h ⊢
    omega

theorem sleepsMade_allFailTrace (fuel : Nat) :
    ∀ start, sleepsMade (allFailTrace start fuel) = fuel := by
  induction fuel with
  | zero => intro s; rfl
  | succ n ih =>
    intro s
    rw [allFailTrace_succ]
    have h := ih (s + 1)
    simp [sleepsMade, isSleepEvent] at h ⊢
    omega

theorem get_writeup_url_fail (resp : Response) (url : String)
    (h : resp.status_code ≠ 200) :
    get_writeup_url resp url =
      Except.error (PyError.couldNotFetchInformation (FetchFailMsg.badStatus resp.status_code)) := by
  simp [get_writeup_url, assert_status_200, h]

theorem retryLoop_allFail (fetch : Nat → Response) (url : String)
    (hf : ∀ k, (fetch k).status_code ≠ 200) :
    ∀ (fuel start : Nat), retryLoop fetch url start fuel = (allFailTrace start fuel, none) := by
  intro fuel
  induction fuel with
  | zero => intro s; rfl
  | succ n ih =>
    intro s
    have hw := get_writeup_url_fail (fetch s) url (hf s)
    simp only [retryLoop, hw]
    rw [ih (s + 1), allFailTrace_succ]

theorem attemptsMade_retryLoop_le (fetch : Nat → Response) (url : String) :
    ∀ (fuel start : Nat), attemptsMade (retryLoop fetch url start fuel).1 ≤ fuel := by
  intro fuel
  induction fuel with
  | zero => intro s; simp [retryLoop, attemptsMade]
  | succ n ih =>
    intro s
    cases hg : get_writeup_url (fetch s) url with
    | ok v => simp [retryLoop, hg, attemptsMade, isAttemptEvent]
    | error e =>
      simp only [retryLoop, hg]
      have h := ih (s + 1)
      simp [attemptsMade, isAttemptEvent] at h ⊢
      omega

theorem extract_info_attempts_le (fetch : Nat → Response) (row : Node) :
    attemptsMade (extract_info fetch row).1 ≤ MAX_RETRIES := by
  cases h1 : rowCtfText row with
  | none => simp [extract_info, h1, attemptsMade]
  | some ctf =>
    cases h2 : rowChallengeText row with
    | none => simp [extract_info, h1, h2, attemptsMade]
    | some challenge =>
      cases h3 : rowLinkAnchor row with
      | none => simp [extract_info, h1, h2, h3, attemptsMade]
      | some a =>
        cases h4 : getAttr a "href" with
        | none => simp [extract_info, h1, h2, h3, h4, attemptsMade]
        | some link =>
          cases hr : retryLoop fetch (BASE_URL ++ link) 0 MAX_RETRIES with
          | mk tr res =>
            have hb := attemptsMade_retryLoop_le fetch (BASE_URL ++ link) MAX_RETRIES 0
            rw [hr] at hb
            cases res <;> simp [extract_info, h1, h2, h3, h4, hr] <;> simpa using hb

theorem extract_info_allFail (fetch : Nat → Response) (row : Node)
    (ctf challenge link : String) (a : Node)
    (h1 : rowCtfText row = some ctf) (h2 : rowChallengeText row = some challenge)
    (h3 : rowLinkAnchor row = some a) (h4 : getAttr a "href" = some link)
    (hf : ∀ i, (fetch i).status_code ≠ 200) :
    extract_info fetch row =
      (allFailTrace 0 MAX_RETRIES,
       Except.error (PyError.couldNotFetchInformation
         (FetchFailMsg.retriesExhausted ctf challenge MAX_RETRIES))) := by
  have hl := retryLoop_allFail fetch (BASE_URL ++ link) hf MAX_RETRIES 0
  simp [extract_info, h1, h2, h3, h4, hl]

/-! ### Claim C7 -/

/-- Claim C7: the fetch status check raises a transient-failure error
(`CouldNotFetchInformation`, carrying the bad status) if and only if the response
status code is not exactly 200; for exactly 200 it returns normally. -/
theorem assert_status_200_iff (status : Int) :
    (assert_status_200 status = Except.ok () ↔ status = 200) ∧
    (assert_status_200 status =
        Except.error (PyError.couldNotFetchInformation (FetchFailMsg.badStatus status)) ↔
      status ≠ 200) := by
  unfold assert_status_200
  by_cases h : status = 200 <;> simp [h]

/-! ### Claim C1 -/

/-- Modelled from the claim's wording, for comparison with the code: the first
anchor inside the FIRST paragraph of the description container. -/
def first_paragraph_first_anchor (content : Node) : Option Node :=
  (((descendants content).filter fun n =>
      isElem "div" n && (getAttr n "id" == some "id_description")).head?).bind
    fun d => ((childElems "p" d).head?).bind fun p => (childElems "a" p).head?

/-- The resolution rule exactly as claim C1 words it: inline link = first anchor in
the first paragraph of the description container, else the 'Original writeup'
anchor, else the detail URL. -/
def resolve_claim_rule (content : Node) (url : String) : Option String :=
  match first_paragraph_first_anchor content with
  | some a => getAttr a "href"
  | none =>
    match (original_writeup_anchors content).head? with
    | some a => getAttr a "href"
    | none => some url

/-- The code's decision rule phrased as extraction plus strict priority: inline
link = first anchor (document order) in ANY paragraph of the description
container, else the first 'Original writeup' anchor, else the detail URL. -/
def resolve_code_rule (content : Node) (url : String) : Option String :=
  match (description_anchors content).head? with
  | some a => getAttr a "href"
  | none =>
    match (original_writeup_anchors content).head? with
    | some a => getAttr a "href"
    | none => some url

/-- Claim C1 counterexample: on a detail page whose description's first paragraph
has no anchor while its second paragraph has one (and with no 'Original writeup'
anchor), the code resolves to the second paragraph's anchor href, whereas the
claim's rule (inline link = first anchor of the FIRST paragraph) resolves to the
detail page's own URL. -/
theorem get_writeup_url_first_paragraph_ce :
    get_writeup_url_parse secondParagraphPage "https://ctftime.org/writeup/7" =
      some "https://example.org/x" ∧
    resolve_claim_rule secondParagraphPage "https://ctftime.org/writeup/7" =
      some "https://ctftime.org/writeup/7" ∧
    get_writeup_url_parse secondParagraphPage "https://ctftime.org/writeup/7" ≠
      resolve_claim_rule secondParagraphPage "https://ctftime.org/writeup/7" :=
  ⟨rfl, rfl, by decide⟩

/-- Claim C1 (amended): for every fetched detail page the resolved URL follows the
strict priority order with the inline link taken as the first anchor (in document
order) inside ANY paragraph of the description container: if present, its href;
otherwise the first anchor whose text equals 'Original writeup', if present, its
href; otherwise the detail page's own URL. -/
theorem get_writeup_url_priority (content : Node) (url : String) :
    get_writeup_url_parse content url = resolve_code_rule content url := by
  unfold get_writeup_url_parse resolve_code_rule
  cases hd : description_anchors content with
  | nil => cases ho : original_writeup_anchors content <;> simp
  | cons a t => simp

/-! ### Claim C4 -/

/-- Claim C4 counterexample: a resolution that succeeds (returns a record, no
exception) on a detail page whose chosen description anchor has no href
attribute: the record's resolved link is Python None, not a non-empty string. -/
theorem resolved_url_none_ce :
    (extract_info hreflessFetch wrow).2 = Except.ok ⟨"CTF1", "chal1", none⟩ ∧
    (RowInformation.link ⟨"CTF1", "chal1", none⟩ = none) :=
  ⟨rfl, rfl⟩

/-- A node's href attribute exists and is a non-empty string. -/
def hrefNonEmpty (a : Node) : Prop := ∃ s, getAttr a "href" = some s ∧ s ≠ ""

/-- Claim C4 (amended): for every successful resolution, PROVIDED the chosen anchor
(if any) carries a non-empty href attribute, the resolved URL is a non-empty
string; when neither link is found it falls back to the detail URL, which at
every call site has the non-empty `BASE_URL` as a prefix and is hence non-empty. -/
theorem resolved_url_nonempty (content : Node) (url : String)
    (hu : url ≠ "")
    (h1 : ∀ a, (description_anchors content).head? = some a → hrefNonEmpty a)
    (h2 : ∀ a, (original_writeup_anchors content).head? = some a → hrefNonEmpty a) :
    (∃ s, get_writeup_url_parse content url = some s ∧ s ≠ "") ∧
    (∀ rel : String, BASE_URL ++ rel ≠ "") := by
  constructor
  · unfold get_writeup_url_parse
    cases hd : description_anchors content with
    | cons a t =>
      obtain ⟨s, hs, hne⟩ := h1 a (by rw [hd]; rfl)
      exact ⟨s, hs, hne⟩
    | nil =>
      cases ho : original_writeup_anchors content with
      | cons a t =>
        obtain ⟨s, hs, hne⟩ := h2 a (by rw [ho]; rfl)
        exact ⟨s, hs, hne⟩
      | nil => exact ⟨url, rfl, hu⟩
  · intro rel h
    have hlen := congrArg String.length h
    rw [String.length_append] at hlen
    have hb : BASE_URL.length = 19 := rfl
    rw [hb] at hlen
    simp at hlen

/-- Witness for the amended claim C4, at the empty detail page (no anchors at all)
and a concrete non-empty detail URL. -/
theorem resolved_url_nonempty_witness :
    ("https://ctftime.org/writeup/3" ≠ "") ∧
    (∀ a, (description_anchors emptyPage).head? = some a → hrefNonEmpty a) ∧
    (∀ a, (original_writeup_anchors emptyPage).head? = some a → hrefNonEmpty a) ∧
    ((∃ s, get_writeup_url_parse emptyPage "https://ctftime.org/writeup/3" = some s ∧ s ≠ "") ∧
      (∀ rel : String, BASE_URL ++ rel ≠ "")) := by
  refine ⟨by decide, ?_, ?_, ?_⟩
  · intro a h; exact nomatch h
  · intro a h; exact nomatch h
  · exact resolved_url_nonempty emptyPage "https://ctftime.org/writeup/3" (by decide)
      (fun a h => nomatch h) (fun a h => nomatch h)

/-! ### Claim C6 -/

/-- Line 71: `wait_time = (2 ** (i + random.random())) / 1000`, over the reals,
where `u` stands for the fresh uniform draw of that attempt. -/
noncomputable def backoff_delay (i : Nat) (u : ℝ) : ℝ :=
  (2 : ℝ) ^ ((i : ℝ) + u) / 1000

/-- Claim C6: for every attempt index i and uniform draw u in [0,1), the backoff
delay 2^(i+u)/1000 lies in [2^i/1000, 2^(i+1)/1000), and for the same draw it is
non-decreasing from attempt i to attempt i+1 (hence non-decreasing in
expectation across attempt indices). -/
theorem backoff_delay_bounds (i : Nat) (u : ℝ) (h0 : 0 ≤ u) (h1 : u < 1) :
    (2 : ℝ) ^ i / 1000 ≤ backoff_delay i u ∧
      backoff_delay i u < (2 : ℝ) ^ (i + 1) / 1000 ∧
      backoff_delay i u ≤ backoff_delay (i + 1) u := by
  have h2 : (1 : ℝ) < 2 := one_lt_two
  have hc : (0 : ℝ) < 1000 := by norm_num
  refine ⟨?_, ?_, ?_⟩
  · have hle : (2 : ℝ) ^ ((i : ℝ)) ≤ (2 : ℝ) ^ ((i : ℝ) + u) :=
      (Real.rpow_le_rpow_left_iff h2).mpr (by linarith)
    rw [Real.rpow_natCast] at hle
    exact (div_le_div_iff_of_pos_right hc).mpr hle
  · have hlt : (2 : ℝ) ^ ((i : ℝ) + u) < (2 : ℝ) ^ (((i + 1 : ℕ) : ℝ)) :=
      (Real.rpow_lt_rpow_left_iff h2).mpr (by push_cast; linarith)
    rw [Real.rpow_natCast] at hlt
    exact (div_lt_div_iff_of_pos_right hc).mpr hlt
  · have hle : (2 : ℝ) ^ ((i : ℝ) + u) ≤ (2 : ℝ) ^ (((i + 1 : ℕ) : ℝ) + u) :=
      (Real.rpow_le_rpow_left_iff h2).mpr (by push_cast; linarith)
    exact (div_le_div_iff_of_pos_right hc).mpr hle

/-- Witness for claim C6 at attempt index 0 and draw u = 1/2. -/
theorem backoff_delay_bounds_witness :
    (0 ≤ (1 / 2 : ℝ)) ∧ ((1 / 2 : ℝ) < 1) ∧
    ((2 : ℝ) ^ (0 : ℕ) / 1000 ≤ backoff_delay 0 (1 / 2) ∧
      backoff_delay 0 (1 / 2) < (2 : ℝ) ^ (0 + 1 : ℕ) / 1000 ∧
      backoff_delay 0 (1 / 2) ≤ backoff_delay (0 + 1) (1 / 2)) :=
  ⟨by norm_num, by norm_num,
    backoff_delay_bounds 0 (1 / 2) (by norm_num) (by norm_num)⟩

/-! ### Claim C2 -/

/-- Claim C2: on a row whose detail-page fetch fails transiently on every attempt,
the retry loop makes exactly the configured MAX_RETRIES attempts and then fails
terminally with a `CouldNotFetchInformation` carrying the row's primary label,
secondary label and the attempt count; and no run of `extract_info` ever makes
more than MAX_RETRIES attempts. -/
theorem retries_exhausted (fetch : Nat → Response) (row : Node)
    (ctf challenge link : String) (a : Node)
    (h1 : rowCtfText row = some ctf) (h2 : rowChallengeText row = some challenge)
    (h3 : rowLinkAnchor row = some a) (h4 : getAttr a "href" = some link)
    (hf : ∀ i, (fetch i).status_code ≠ 200) :
    attemptsMade (extract_info fetch row).1 = MAX_RETRIES ∧
    (extract_info fetch row).2 =
      Except.error (PyError.couldNotFetchInformation
        (FetchFailMsg.retriesExhausted ctf challenge MAX_RETRIES)) ∧
    ∀ (g : Nat → Response) (r : Node), attemptsMade (extract_info g r).1 ≤ MAX_RETRIES := by
  have he := extract_info_allFail fetch row ctf challenge link a h1 h2 h3 h4 hf
  refine ⟨?_, ?_, ?_⟩
  · simp [he, attemptsMade_allFailTrace]
  · simp [he]
  · intro g r; exact extract_info_attempts_le g r

/-- Witness for claim C2: a concrete well-formed row whose fetches all return 404. -/
theorem retries_exhausted_witness :
    (rowCtfText wrow = some "CTF1") ∧ (rowChallengeText wrow = some "chal1") ∧
    (rowLinkAnchor wrow = some (Node.elem "a" [("href", "/writeup/9")] [])) ∧
    (getAttr (Node.elem "a" [("href", "/writeup/9")] []) "href" = some "/writeup/9") ∧
    (∀ i, (failFetch i).status_code ≠ 200) ∧
    (attemptsMade (extract_info failFetch wrow).1 = MAX_RETRIES ∧
     (extract_info failFetch wrow).2 =
       Except.error (PyError.couldNotFetchInformation
         (FetchFailMsg.retriesExhausted "CTF1" "chal1" MAX_RETRIES)) ∧
     ∀ (g : Nat → Response) (r : Node), attemptsMade (extract_info g r).1 ≤ MAX_RETRIES) := by
  refine ⟨rfl, rfl, rfl, rfl, ?_, ?_⟩
  · exact fun i => show (404 : Int) ≠ 200 by decide
  · exact retries_exhausted failFetch wrow "CTF1" "chal1" "/writeup/9" _
      rfl rfl rfl rfl (fun i => show (404 : Int) ≠ 200 by decide)

/-! ### Claim C9 -/

/-- Claim C9: when every attempt for a row fails transiently, the loop performs a
backoff sleep after every failed attempt INCLUDING the final one: the trace is an
attempt/sleep pair for each index 0..MAX_RETRIES-1, exactly MAX_RETRIES sleeps
occur, and the last event before the terminal failure is the final sleep. -/
theorem sleep_after_final_attempt (fetch : Nat → Response) (row : Node)
    (ctf challenge link : String) (a : Node)
    (h1 : rowCtfText row = some ctf) (h2 : rowChallengeText row = some challenge)
    (h3 : rowLinkAnchor row = some a) (h4 : getAttr a "href" = some link)
    (hf : ∀ i, (fetch i).status_code ≠ 200) :
    (extract_info fetch row).1 = allFailTrace 0 MAX_RETRIES ∧
    sleepsMade (extract_info fetch row).1 = MAX_RETRIES ∧
    (extract_info fetch row).1.getLast? = some (LoopEvent.sleep (MAX_RETRIES - 1)) := by
  have he := extract_info_allFail fetch row ctf challenge link a h1 h2 h3 h4 hf
  refine ⟨by simp [he], by simp [he, sleepsMade_allFailTrace], ?_⟩
  have h : (extract_info fetch row).1 = allFailTrace 0 MAX_RETRIES := by simp [he]
  rw [h]
  decide

/-- Witness for claim C9: the same concrete all-404 run, checked for its sleeps. -/
theorem sleep_after_final_attempt_witness :
    (rowCtfText wrow = some "CTF1") ∧ (rowChallengeText wrow = some "chal1") ∧
    (rowLinkAnchor wrow = some (Node.elem "a" [("href", "/writeup/9")] [])) ∧
    (getAttr (Node.elem "a" [("href", "/writeup/9")] []) "href" = some "/writeup/9") ∧
    (∀ i, (failFetch i).status_code ≠ 200) ∧
    ((extract_info failFetch wrow).1 = allFailTrace 0 MAX_RETRIES ∧
     sleepsMade (extract_info failFetch wrow).1 = MAX_RETRIES ∧
     (extract_info failFetch wrow).1.getLast? = some (LoopEvent.sleep (MAX_RETRIES - 1))) := by
  refine ⟨rfl, rfl, rfl, rfl, ?_, ?_⟩
  · exact fun i => show (404 : Int) ≠ 200 by decide
  · exact sleep_after_final_attempt failFetch wrow "CTF1" "chal1" "/writeup/9" _
      rfl rfl rfl rfl (fun i => show (404 : Int) ≠ 200 by decide)

/-! ### Claim C8 -/

/-- Claim C8: a row in which the column-1 anchor text, the column-2 anchor text or
the column-5 anchor is missing fails at extraction with a hard IndexError: no
record with a silently empty value is produced, no fetch attempt is made (so the
row is never retried), and the error is not the transient
`CouldNotFetchInformation` class. -/
theorem malformed_row_hard_error (fetch : Nat → Response) (row : Node)
    (h : rowCtfText row = none ∨ rowChallengeText row = none ∨ rowLinkAnchor row = none) :
    (extract_info fetch row).1 = [] ∧
    (extract_info fetch row).2 = Except.error PyError.indexError ∧
    ∀ m, (extract_info fetch row).2 ≠
      Except.error (PyError.couldNotFetchInformation m) := by
  have hmain : (extract_info fetch row).1 = [] ∧
      (extract_info fetch row).2 = Except.error PyError.indexError := by
    rcases h with h | h | h
    · simp [extract_info, h]
    · cases h1 : rowCtfText row with
      | none => simp [extract_info, h1]
      | some ctf => simp [extract_info, h1, h]
    · cases h1 : rowCtfText row with
      | none => simp [extract_info, h1]
      | some ctf =>
        cases h2 : rowChallengeText row with
        | none => simp [extract_info, h1, h2]
        | some c => simp [extract_info, h1, h2, h]
  refine ⟨hmain.1, hmain.2, ?_⟩
  intro m hcon
  rw [hmain.2] at hcon
  simp at hcon

/-- Witness for claim C8: a row with no cells at all, under a fetch oracle that
would succeed if it were ever consulted. -/
theorem malformed_row_hard_error_witness :
    (rowCtfText badRow = none ∨ rowChallengeText badRow = none ∨
      rowLinkAnchor badRow = none) ∧
    ((extract_info okEmptyFetch badRow).1 = [] ∧
     (extract_info okEmptyFetch badRow).2 = Except.error PyError.indexError ∧
     ∀ m, (extract_info okEmptyFetch badRow).2 ≠
       Except.error (PyError.couldNotFetchInformation m)) :=
  ⟨Or.inl rfl, malformed_row_hard_error okEmptyFetch badRow (Or.inl rfl)⟩

/-! ### Pool-map lemmas -/

theorem extract_info_ok_fields (fetch : Nat → Response) (row : Node) (r : RowInformation)
    (h : (extract_info fetch row).2 = Except.ok r) :
    rowCtfText row = some r.ctf ∧ rowChallengeText row = some r.challenge := by
  cases h1 : rowCtfText row with
  | none => simp [extract_info, h1] at h
  | some ctf =>
    cases h2 : rowChallengeText row with
    | none => simp [extract_info, h1, h2] at h
    | some challenge =>
      cases h3 : rowLinkAnchor row with
      | none => simp [extract_info, h1, h2, h3] at h
      | some a =>
        cases h4 : getAttr a "href" with
        | none => simp [extract_info, h1, h2, h3, h4] at h
        | some link =>
          cases hr : retryLoop fetch (BASE_URL ++ link) 0 MAX_RETRIES with
          | mk tr res =>
            cases res with
            | none => simp [extract_info, h1, h2, h3, h4, hr] at h
            | some v =>
              simp [extract_info, h1, h2, h3, h4, hr] at h
              subst h
              exact ⟨rfl, rfl⟩

theorem pool_map_ok (fetch : Nat → Nat → Response) :
    ∀ (rows : List Node) (j0 : Nat),
      (∀ k (hk : k < rows.length),
        ∃ r, (extract_info (fetch (j0 + k)) (rows.get ⟨k, hk⟩)).2 = Except.ok r) →
      ∃ l : List RowInformation, pool_map fetch j0 rows = Except.ok l ∧
        l.length = rows.length ∧
        ∀ k (hk : k < rows.length) (hk2 : k < l.length),
          (extract_info (fetch (j0 + k)) (rows.get ⟨k, hk⟩)).2 = Except.ok (l.get ⟨k, hk2⟩) := by
  intro rows
  induction rows with
  | nil =>
    intro j0 h
    exact ⟨[], rfl, rfl, fun k hk => absurd hk (Nat.not_lt_zero k)⟩
  | cons r rest ih =>
    intro j0 h
    obtain ⟨r0, hr0⟩ := h 0 (Nat.succ_pos _)
    have hr0' : (extract_info (fetch j0) r).2 = Except.ok r0 := by simpa using hr0
    have hrest : ∀ k (hk : k < rest.length),
        ∃ r2, (extract_info (fetch (j0 + 1 + k)) (rest.get ⟨k, hk⟩)).2 = Except.ok r2 := by
      intro k hk
      have hx := h (k + 1) (Nat.succ_lt_succ hk)
      have heq : j0 + (k + 1) = j0 + 1 + k := by omega
      rw [heq] at hx
      simpa using hx
    obtain ⟨l, hl, hlen, hpt⟩ := ih (j0 + 1) hrest
    refine ⟨r0 :: l, ?_, by simp [hlen], ?_⟩
    · simp [pool_map, hr0', hl]
    · intro k hk hk2
      cases k with
      | zero => simpa using hr0'
      | succ k =>
        have heq : j0 + (k + 1) = j0 + 1 + k := by omega
        rw [heq]
        have h1 : k < rest.length := Nat.lt_of_succ_lt_succ hk
        have h2 : k < l.length := Nat.lt_of_succ_lt_succ hk2
        have hx := hpt k h1 h2
        simpa using hx

theorem pool_map_error (fetch : Nat → Nat → Response) :
    ∀ (rows : List Node) (j0 j : Nat) (hj : j < rows.length) (e : PyError),
      (extract_info (fetch (j0 + j)) (rows.get ⟨j, hj⟩)).2 = Except.error e →
      ∃ e2, pool_map fetch j0 rows = Except.error e2 := by
  intro rows
  induction rows with
  | nil => intro j0 j hj e he; exact absurd hj (Nat.not_lt_zero j)
  | cons r rest ih =>
    intro j0 j hj e he
    cases hx : (extract_info (fetch j0) r).2 with
    | error e0 => exact ⟨e0, by simp [pool_map, hx]⟩
    | ok r0 =>
      cases j with
      | zero =>
        have hz : (extract_info (fetch j0) r).2 = Except.error e := by simpa using he
        rw [hx] at hz
        simp at hz
      | succ j =>
        have heq : j0 + (j + 1) = j0 + 1 + j := by omega
        rw [heq] at he
        have h1 : j < rest.length := Nat.lt_of_succ_lt_succ hj
        obtain ⟨e2, h2⟩ := ih (j0 + 1) j h1 e (by simpa using he)
        exact ⟨e2, by simp [pool_map, hx, h2]⟩

/-! ### Claim C3 -/

/-- Claim C3 counterexample: an index page from which exactly one row is extracted,
whose detail fetches all fail: the crawl raises and returns NO outcome at all
(not R = 1 outcomes, and no per-row failure marker). -/
theorem crawl_outcomes_ce :
    (writeups_rows oneRowIndex.content).length = 1 ∧
    (get_all_writetups oneRowIndex allFailFetch).result =
      Except.error (PyError.couldNotFetchInformation
        (FetchFailMsg.retriesExhausted "CTF1" "chal1" MAX_RETRIES)) :=
  ⟨rfl, rfl⟩

/-- Claim C3 (amended): for every index page from which R rows are extracted,
crawl issues exactly 1 index fetch, and WHEN every row resolves successfully it
returns exactly R records, the k-th being exactly the record `extract_info`
produces from the k-th row — carrying that row's column-1 anchor text, column-2
anchor text and its resolved URL; when some row fails terminally the crawl
instead raises and returns no outcome list. -/
theorem crawl_success_outcomes (indexResp : Response) (fetch : Nat → Nat → Response)
    (hst : indexResp.status_code = 200)
    (hok : ∀ k (hk : k < (writeups_rows indexResp.content).length),
      ∃ r, (extract_info (fetch k) ((writeups_rows indexResp.content).get ⟨k, hk⟩)).2 =
        Except.ok r) :
    (get_all_writetups indexResp fetch).indexFetches = 1 ∧
    ∃ l : List RowInformation,
      (get_all_writetups indexResp fetch).result = Except.ok l ∧
      l.length = (writeups_rows indexResp.content).length ∧
      ∀ k (hk : k < (writeups_rows indexResp.content).length) (hk2 : k < l.length),
        (extract_info (fetch k) ((writeups_rows indexResp.content).get ⟨k, hk⟩)).2 =
          Except.ok (l.get ⟨k, hk2⟩) ∧
        rowCtfText ((writeups_rows indexResp.content).get ⟨k, hk⟩) =
          some ((l.get ⟨k, hk2⟩).ctf) ∧
        rowChallengeText ((writeups_rows indexResp.content).get ⟨k, hk⟩) =
          some ((l.get ⟨k, hk2⟩).challenge) := by
  have hrun : get_all_writetups indexResp fetch =
      { indexFetches := 1, result := pool_map fetch 0 (writeups_rows indexResp.content) } := by
    simp [get_all_writetups, assert_status_200, hst]
  have hok0 : ∀ k (hk : k < (writeups_rows indexResp.content).length),
      ∃ r, (extract_info (fetch (0 + k)) ((writeups_rows indexResp.content).get ⟨k, hk⟩)).2 =
        Except.ok r := by
    intro k hk
    simpa using hok k hk
  obtain ⟨l, hl, hlen, hpt⟩ := pool_map_ok fetch (writeups_rows indexResp.content) 0 hok0
  refine ⟨by rw [hrun], l, by rw [hrun]; exact hl, hlen, ?_⟩
  intro k hk hk2
  have hoe : (extract_info (fetch k) ((writeups_rows indexResp.content).get ⟨k, hk⟩)).2 =
      Except.ok (l.get ⟨k, hk2⟩) := by
    have hx := hpt k hk hk2
    simpa using hx
  have hf := extract_info_ok_fields (fetch k) _ _ hoe
  exact ⟨hoe, hf.1, hf.2⟩

/-- Witness for the amended claim C3: the two-row example index page, where both
rows resolve on their first attempt. -/
theorem crawl_success_outcomes_witness :
    (exIndex.status_code = 200) ∧
    (∀ k (hk : k < (writeups_rows exIndex.content).length),
      ∃ r, (extract_info (exFetch k) ((writeups_rows exIndex.content).get ⟨k, hk⟩)).2 =
        Except.ok r) ∧
    ((get_all_writetups exIndex exFetch).indexFetches = 1 ∧
     ∃ l : List RowInformation,
       (get_all_writetups exIndex exFetch).result = Except.ok l ∧
       l.length = (writeups_rows exIndex.content).length ∧
       ∀ k (hk : k < (writeups_rows exIndex.content).length) (hk2 : k < l.length),
         (extract_info (exFetch k) ((writeups_rows exIndex.content).get ⟨k, hk⟩)).2 =
           Except.ok (l.get ⟨k, hk2⟩) ∧
         rowCtfText ((writeups_rows exIndex.content).get ⟨k, hk⟩) =
           some ((l.get ⟨k, hk2⟩).ctf) ∧
         rowChallengeText ((writeups_rows exIndex.content).get ⟨k, hk⟩) =
           some ((l.get ⟨k, hk2⟩).challenge)) := by
  have hok : ∀ k (hk : k < (writeups_rows exIndex.content).length),
      ∃ r, (extract_info (exFetch k) ((writeups_rows exIndex.content).get ⟨k, hk⟩)).2 =
        Except.ok r := by
    intro k hk
    cases k with
    | zero => exact ⟨⟨"CTF1", "pwn200", some "https://github.com/a/a"⟩, rfl⟩
    | succ k =>
      cases k with
      | zero => exact ⟨⟨"CTF2", "pwn300", some "https://blog.example/b"⟩, rfl⟩
      | succ k => exact absurd (show k + 2 < 2 from hk) (by omega)
  exact ⟨rfl, hok, crawl_success_outcomes exIndex exFetch rfl hok⟩

/-! ### Claim C5 -/

/-- Claim C5 counterexample: two extracted rows; row 0's detail fetches all fail
while row 1 on its own resolves successfully; the crawl raises row 0's terminal
error and produces no outcome for row 1 (or any row). -/
theorem sibling_rows_aborted_ce :
    (writeups_rows twoRowIndex.content).length = 2 ∧
    (extract_info (row0FailsFetch 1)
        ((writeups_rows twoRowIndex.content).get ⟨1, by decide⟩)).2 =
      Except.ok ⟨"CTF2", "pwn300", some "https://blog.example/b"⟩ ∧
    (get_all_writetups twoRowIndex row0FailsFetch).result =
      Except.error (PyError.couldNotFetchInformation
        (FetchFailMsg.retriesExhausted "CTF1" "pwn200" MAX_RETRIES)) :=
  ⟨rfl, rfl, rfl⟩

/-- Claim C5 (amended): when a single row's resolution fails terminally after
exhausting its retries, the exception propagates out of the pool map and
`get_all_writetups` raises: the whole crawl aborts and produces an outcome for
no row at all (sibling results are discarded, not reported). -/
theorem row_failure_aborts_crawl (indexResp : Response) (fetch : Nat → Nat → Response)
    (j : Nat) (e : PyError)
    (hst : indexResp.status_code = 200)
    (hj : j < (writeups_rows indexResp.content).length)
    (he : (extract_info (fetch j) ((writeups_rows indexResp.content).get ⟨j, hj⟩)).2 =
      Except.error e) :
    ∃ e2, (get_all_writetups indexResp fetch).result = Except.error e2 := by
  have hrun : get_all_writetups indexResp fetch =
      { indexFetches := 1, result := pool_map fetch 0 (writeups_rows indexResp.content) } := by
    simp [get_all_writetups, assert_status_200, hst]
  obtain ⟨e2, h2⟩ :=
    pool_map_error fetch (writeups_rows indexResp.content) 0 j hj e (by simpa using he)
  exact ⟨e2, by rw [hrun]; exact h2⟩

/-- Witness for the amended claim C5, at the concrete two-row fixture with a
failing first row. -/
theorem row_failure_aborts_crawl_witness :
    (twoRowIndex.status_code = 200) ∧
    ((extract_info (row0FailsFetch 0)
        ((writeups_rows twoRowIndex.content).get ⟨0, by decide⟩)).2 =
      Except.error (PyError.couldNotFetchInformation
        (FetchFailMsg.retriesExhausted "CTF1" "pwn200" MAX_RETRIES))) ∧
    (∃ e2, (get_all_writetups twoRowIndex row0FailsFetch).result = Except.error e2) :=
  ⟨rfl, rfl,
    row_failure_aborts_crawl twoRowIndex row0FailsFetch 0
      (PyError.couldNotFetchInformation
        (FetchFailMsg.retriesExhausted "CTF1" "pwn200" MAX_RETRIES))
      rfl (by decide) rfl⟩

/-! ### Claim C10 -/

/-- An index response with a transient failure status. -/
def resp404Index : Response := ⟨404, emptyPage⟩

/-- Claim C10: when `get_all_writetups` raises `CouldNotFetchInformation` (index
fetch failure or a row's terminal resolution failure), the main block catches and
logs it, still prints the separator line, and then evaluates the never-bound name
`info`: the run terminates with an unhandled NameError and no result list is
printed. -/
theorem main_nameError_on_failure (indexResp : Response) (fetch : Nat → Nat → Response)
    (m : FetchFailMsg)
    (h : (get_all_writetups indexResp fetch).result =
      Except.error (PyError.couldNotFetchInformation m)) :
    main_run (get_all_writetups indexResp fetch).result =
      ([MainEvent.loggedException, MainEvent.printedSeparator], some PyError.nameError) ∧
    ∀ l, MainEvent.pprintedInfo l ∉ (main_run (get_all_writetups indexResp fetch).result).1 := by
  rw [h]
  refine ⟨rfl, ?_⟩
  intro l
  simp [main_run, main_try]

/-- Witness for claim C10: an index fetch that returns status 404, so the crawl
raises `CouldNotFetchInformation` with that bad status. -/
theorem main_nameError_on_failure_witness :
    ((get_all_writetups resp404Index allFailFetch).result =
      Except.error (PyError.couldNotFetchInformation (FetchFailMsg.badStatus 404))) ∧
    (main_run (get_all_writetups resp404Index allFailFetch).result =
      ([MainEvent.loggedException, MainEvent.printedSeparator], some PyError.nameError) ∧
     ∀ l, MainEvent.pprintedInfo l ∉
       (main_run (get_all_writetups resp404Index allFailFetch).result).1) :=
  ⟨rfl, main_nameError_on_failure resp404Index allFailFetch (FetchFailMsg.badStatus 404) rfl⟩

end Crawler
